import Mathlib

/-!
Verification of the lightning post-processing unit of
BresserWeatherSensorReceiver (`src/Lightning.h`).

The repository sources contain only the header `Lightning.h`: it gives the
constants, the non-volatile data structure `nvLightning_t` with its in-class
initializer, and the full body of `setUpdateRate`.  The bodies of `update`,
`pastHour`, `reset`, `hist_init`, `lastCycle` and `lastEvent` live in a
`Lightning.cpp` that is not part of the sources; those operations are
modelled from the specification (each such definition carries a
`Modelled from the spec:` doc comment).

Machine integers (`int16_t`, `uint32_t`, `time_t`) are embedded as `Int`/`Nat`;
the only place where fixed-width overflow matters is the `uint32_t`
accumulator `accCount`, which is reduced modulo `2^32` explicitly.
Timestamps are epoch seconds, embedded as `Nat`.
The `float` quality fraction is embedded as `Rat` (the spec defines it as the
exact fraction `nbins / H`).
-/

/-- `#define LIGHTNINGCOUNT_MAX_VALUE 1600` (Lightning.h line 90): counter
value at which the sensor's output wraps to zero. -/
def LIGHTNINGCOUNT_MAX_VALUE : Int := 1600

/-- `#define LIGHTNING_UPD_RATE 6` (Lightning.h line 97): default update rate
in minutes. -/
def LIGHTNING_UPD_RATE : Nat := 6

/-- `#define LIGHTNING_HIST_SIZE 10` (Lightning.h line 104): number of
histogram entries. -/
def LIGHTNING_HIST_SIZE : Nat := 10

/-- `#define DEFAULT_QUALITY_THRESHOLD 0.8` (Lightning.h line 111). -/
def DEFAULT_QUALITY_THRESHOLD : Rat := 0.8

/-- `nvLightning_t` (Lightning.h lines 121-140): non-volatile lightning data.
`hist` is `int16_t hist[LIGHTNING_HIST_SIZE]`, embedded as a `List Int`
(length `LIGHTNING_HIST_SIZE` in every reachable state). -/
structure nvLightning_t where
  lastUpdate : Nat
  startupPrev : Bool
  preStCount : Int
  accCount : Nat
  prevCount : Int
  events : Int
  distance : Nat
  timestamp : Nat
  hist : List Int
  updateRate : Nat
deriving DecidableEq, Repr

/-- The `Lightning` class state (Lightning.h lines 149-173): the private
members `qualityThreshold`, `deltaEvents = -1` and the member `nvLightning`.
`eventRecorded` is modelled from the spec: `Lightning.cpp` (which decides how
`lastEvent` detects "no event has ever been recorded") is not in the sources;
the spec states `lastEvent` returns false iff no update with delta > 0 has
ever occurred, which we carry as an explicit flag set exactly when an update
resolves a positive delta. -/
structure Lightning where
  qualityThreshold : Rat
  deltaEvents : Int
  eventRecorded : Bool
  nv : nvLightning_t
deriving DecidableEq, Repr

/-- The in-class initializer of `nvLightning` (Lightning.h lines 157-168):
`.hist = {0}` aggregate-initializes every array element to `0`. -/
def initNvLightning : nvLightning_t :=
  { lastUpdate := 0
    startupPrev := false
    preStCount := 0
    accCount := 0
    prevCount := -1
    events := 0
    distance := 0
    timestamp := 0
    hist := List.replicate LIGHTNING_HIST_SIZE 0
    updateRate := LIGHTNING_UPD_RATE }

/-- A freshly constructed `Lightning` object with the default quality
threshold (Lightning.h lines 152-154, 157-168, 181-183). -/
def initLightning : Lightning :=
  { qualityThreshold := DEFAULT_QUALITY_THRESHOLD
    deltaEvents := -1
    eventRecorded := false
    nv := initNvLightning }

/-- Modelled from the spec: the body of `Lightning::hist_init` is not in the
sources.  Spec 4.2: "`hist_init(count = -1)`: resets every bucket to `count`
(default sentinel -1)". -/
def hist_init (L : Lightning) (count : Int) : Lightning :=
  { L with nv := { L.nv with hist := List.replicate LIGHTNING_HIST_SIZE count } }

/-- Modelled from the spec: the body of `Lightning::reset` is not in the
sources.  Spec 4.3: "`reset()`: re-initializes all Persistent State fields to
their zero/sentinel defaults and invokes `hist_init()`"; the sentinel default
of `prevCount` is -1 ("no prior reading") and of the histogram buckets -1,
and after a reset no event has been recorded. -/
def reset (L : Lightning) : Lightning :=
  hist_init
    { L with
      eventRecorded := false
      nv :=
        { lastUpdate := 0
          startupPrev := false
          preStCount := 0
          accCount := 0
          prevCount := -1
          events := 0
          distance := 0
          timestamp := 0
          hist := L.nv.hist
          updateRate := LIGHTNING_UPD_RATE } }
    (-1)

/-- `Lightning::setUpdateRate` (Lightning.h lines 213-227, unit-test branch):
remembers the previous rate, stores the new rate, and calls `hist_init()`
iff the rate changed. -/
def setUpdateRate (L : Lightning) (rate : Nat) : Lightning :=
  let updateRatePrev := L.nv.updateRate
  let L1 : Lightning := { L with nv := { L.nv with updateRate := rate } }
  if L1.nv.updateRate ≠ updateRatePrev then hist_init L1 (-1) else L1

/-- Number of histogram bins for an update rate: `H = 60 / updateRate`
(spec 4.2). -/
def histBins (ur : Nat) : Nat := 60 / ur

/-- Cycle number of an epoch timestamp: one cycle per `updateRate` minutes. -/
def cycleOf (ur t : Nat) : Nat := t / (60 * ur)

/-- Modelled from the spec: the resolved event delta of one `update` call
(`Lightning.cpp` is not in the sources).  Spec 4.1:
first-ever update (`prevCount == -1`) gives delta 0; a startup transition
(`startupFlag` newly true) treats `rawCount` as the new baseline with delta
relative to zero; otherwise `rawCount ≥ prevCount` is a normal step and
`rawCount < prevCount` an overflow wrap past `LIGHTNINGCOUNT_MAX_VALUE`. -/
def resolvedDelta (nv : nvLightning_t) (rawCount : Int) (startup : Bool) : Int :=
  if nv.prevCount = -1 then 0
  else if startup = true ∧ nv.startupPrev = false then rawCount
  else if nv.prevCount ≤ rawCount then rawCount - nv.prevCount
  else (LIGHTNINGCOUNT_MAX_VALUE - nv.prevCount) + rawCount

/-- Modelled from the spec: histogram gap invalidation (`Lightning.cpp` is
not in the sources).  Spec 4.2: "if one or more expected cycles were skipped
(gap detected from elapsed time vs. `updateRate`), the intervening buckets
are set to -1 rather than left stale".  The cycles strictly between `cPrev`
and `cCurr` have their ring positions (`% H`) set to -1. -/
def invalidateGap (hist : List Int) (H cPrev cCurr : Nat) : List Int :=
  (List.range (cCurr - cPrev - 1)).foldl
    (fun acc i => acc.set ((cPrev + 1 + i) % H) (-1)) hist

/-- Modelled from the spec: the body of `Lightning::update` is not in the
sources.  Spec 4.1 steps 1-5 and 4.2 insertion: resolve the delta
(`resolvedDelta`), invalidate skipped histogram buckets, overwrite the
current cycle's bucket with the delta, add the delta to the `uint32_t`
accumulator (wrapping modulo `2^32`), take the last-event snapshot when
delta > 0, capture `preStCount` on a startup transition, and update
`prevCount`, `startupPrev`, `lastUpdate` and `deltaEvents` unconditionally. -/
def update (L : Lightning) (t : Nat) (count : Int) (dist : Nat) (startup : Bool) :
    Lightning :=
  let nv := L.nv
  let delta := resolvedDelta nv count startup
  let H := histBins nv.updateRate
  let cPrev := cycleOf nv.updateRate nv.lastUpdate
  let cCurr := cycleOf nv.updateRate t
  let hist2 := (invalidateGap nv.hist H cPrev cCurr).set (cCurr % H) delta
  { qualityThreshold := L.qualityThreshold
    deltaEvents := delta
    eventRecorded := if 0 < delta then true else L.eventRecorded
    nv :=
      { lastUpdate := t
        startupPrev := startup
        preStCount :=
          if startup = true ∧ nv.startupPrev = false then nv.prevCount
          else nv.preStCount
        accCount := (nv.accCount + delta.toNat) % 2 ^ 32
        prevCount := count
        events := if 0 < delta then delta else nv.events
        distance := if 0 < delta then dist else nv.distance
        timestamp := if 0 < delta then t else nv.timestamp
        hist := hist2
        updateRate := nv.updateRate } }

/-- Modelled from the spec: the body of `Lightning::lastCycle` is not in the
sources.  Spec 4.4: "returns `deltaEvents` from the most recent `update`
(transient, -1 if no update occurred yet)". -/
def lastCycle (L : Lightning) : Int := L.deltaEvents

/-- Modelled from the spec: the body of `Lightning::lastEvent` is not in the
sources.  Spec 4.4: returns the last-event snapshot
`(timestamp, events, distance)`, or false (here `none`) if no event has ever
been recorded. -/
def lastEvent (L : Lightning) : Option (Nat × Int × Nat) :=
  if L.eventRecorded then some (L.nv.timestamp, L.nv.events, L.nv.distance)
  else none

/-- The histogram buckets holding a value ≥ 0 (the valid buckets of
spec 4.2). -/
def validBuckets (hist : List Int) : List Int :=
  hist.filter (fun x => decide (0 ≤ x))

/-- Modelled from the spec: the body of `Lightning::pastHour` is not in the
sources.  Spec 4.2: "sums all buckets with value ≥ 0; `nbins` = count of such
valid buckets; `quality = nbins / H`; `valid = quality >= qualityThreshold`".
Returns `(sum, valid, nbins, quality)`. -/
def pastHour (L : Lightning) : Int × Bool × Nat × Rat :=
  let bins := (validBuckets L.nv.hist).length
  let quality : Rat := (bins : Rat) / (histBins L.nv.updateRate : Rat)
  ((validBuckets L.nv.hist).sum,
    decide (L.qualityThreshold ≤ quality), bins, quality)

/-- Run a list of `update` calls `(t, count, distance, startup)` in order. -/
def runUpdates (L : Lightning) (inputs : List (Nat × Int × Nat × Bool)) :
    Lightning :=
  inputs.foldl (fun s i => update s i.1 i.2.1 i.2.2.1 i.2.2.2) L

/-- A state whose previous raw counter sits one below the overflow value. -/
def exOverflowState : Lightning :=
  { initLightning with nv := { initNvLightning with prevCount := 1599 } }

/-- A state whose previous raw counter is 5, restart flag not yet seen. -/
def exPreStartState : Lightning :=
  { initLightning with nv := { initNvLightning with prevCount := 5 } }

/-- Claim C1: on an update with no restart observed this cycle and
`rawCount < prevCount` (`prevCount ≠ -1`), the resolved delta equals
`(LIGHTNINGCOUNT_MAX_VALUE - prevCount) + rawCount`, and it is never negative
(given the declared input and state ranges). -/
theorem update_overflow_wrap (L : Lightning) (t : Nat) (c : Int) (d : Nat) (su : Bool)
    (hprev : L.nv.prevCount ≠ -1)
    (hns : ¬ (su = true ∧ L.nv.startupPrev = false))
    (hlt : c < L.nv.prevCount)
    (h0 : 0 ≤ c) (h1 : L.nv.prevCount ≤ LIGHTNINGCOUNT_MAX_VALUE) :
    (update L t c d su).deltaEvents
      = (LIGHTNINGCOUNT_MAX_VALUE - L.nv.prevCount) + c ∧
    0 ≤ (update L t c d su).deltaEvents := by
  have hd : resolvedDelta L.nv c su
      = (LIGHTNINGCOUNT_MAX_VALUE - L.nv.prevCount) + c := by
    unfold resolvedDelta
    rw [if_neg hprev, if_neg hns, if_neg (not_le.mpr hlt)]
  have he : (update L t c d su).deltaEvents = resolvedDelta L.nv c su := rfl
  refine ⟨he.trans hd, ?_⟩
  rw [he, hd]
  have h2 : L.nv.prevCount ≤ 1600 := h1
  show 0 ≤ ((1600 : Int) - L.nv.prevCount) + c
  omega

/-- Witness for C1: with `prevCount = 1599` and `rawCount = 1` the delta is
`2`, not negative. -/
theorem update_overflow_wrap_witness :
    (update exOverflowState 360 1 0 false).deltaEvents = 2 ∧
    0 ≤ (update exOverflowState 360 1 0 false).deltaEvents := by
  have h := update_overflow_wrap exOverflowState 360 1 0 false (by decide) (by decide)
    (by decide) (by decide) (by decide)
  exact ⟨h.1.trans (by decide), h.2⟩

/-- Claim C2: on a startup transition (`startupFlag` newly true,
`prevCount ≠ -1`) the new baseline `prevCount` equals the new `rawCount`,
the delta is computed relative to zero (`rawCount - 0`), it is never
negative, and the raw count preceding the restart is retained in
`preStCount` for the following cycle. -/
theorem update_startup_transition (L : Lightning) (t : Nat) (c : Int) (d : Nat)
    (hprev : L.nv.prevCount ≠ -1)
    (hsp : L.nv.startupPrev = false)
    (h0 : 0 ≤ c) :
    (update L t c d true).nv.prevCount = c ∧
    (update L t c d true).deltaEvents = c - 0 ∧
    0 ≤ (update L t c d true).deltaEvents ∧
    (update L t c d true).nv.preStCount = L.nv.prevCount := by
  have hd : resolvedDelta L.nv c true = c := by
    unfold resolvedDelta
    rw [if_neg hprev, if_pos ⟨rfl, hsp⟩]
  have he : (update L t c d true).deltaEvents = resolvedDelta L.nv c true := rfl
  refine ⟨rfl, ?_, ?_, ?_⟩
  · rw [he, hd]; omega
  · rw [he, hd]; exact h0
  · show (if true = true ∧ L.nv.startupPrev = false then L.nv.prevCount
        else L.nv.preStCount) = L.nv.prevCount
    exact if_pos ⟨rfl, hsp⟩

/-- Witness for C2: from `prevCount = 5`, a startup update with
`rawCount = 3` gives baseline `3`, delta `3`, and `preStCount = 5`. -/
theorem update_startup_transition_witness :
    (update exPreStartState 360 3 0 true).nv.prevCount = 3 ∧
    (update exPreStartState 360 3 0 true).deltaEvents = 3 ∧
    0 ≤ (update exPreStartState 360 3 0 true).deltaEvents ∧
    (update exPreStartState 360 3 0 true).nv.preStCount = 5 := by
  have h := update_startup_transition exPreStartState 360 3 0 (by decide) (by decide)
    (by decide)
  exact ⟨h.1, h.2.1.trans (by decide), h.2.2.1, h.2.2.2.trans (by decide)⟩

/-- Claim C4: an update in the "no prior reading" state (`prevCount = -1`)
records `rawCount` as the new baseline, resolves a delta of 0, and emits no
event (the last-event snapshot and its visibility are unchanged). -/
theorem update_first_reading (L : Lightning) (t : Nat) (c : Int) (d : Nat) (su : Bool)
    (h : L.nv.prevCount = -1) :
    (update L t c d su).nv.prevCount = c ∧
    (update L t c d su).deltaEvents = 0 ∧
    lastEvent (update L t c d su) = lastEvent L ∧
    (update L t c d su).nv.events = L.nv.events ∧
    (update L t c d su).nv.distance = L.nv.distance ∧
    (update L t c d su).nv.timestamp = L.nv.timestamp := by
  have hd : resolvedDelta L.nv c su = 0 := by
    unfold resolvedDelta
    rw [if_pos h]
  refine ⟨rfl, ?_, ?_, ?_, ?_, ?_⟩ <;>
    simp [update, lastEvent, hd]

/-- Witness for C4: the first-ever update (fresh object) with `rawCount = 7`
sets the baseline to 7, delta 0, and `lastEvent` still reports no event. -/
theorem update_first_reading_witness :
    (update initLightning 360 7 2 true).nv.prevCount = 7 ∧
    (update initLightning 360 7 2 true).deltaEvents = 0 ∧
    lastEvent (update initLightning 360 7 2 true) = none := by
  have h := update_first_reading initLightning 360 7 2 true (by decide)
  exact ⟨h.1, h.2.1, (h.2.2.1).trans (by decide)⟩

/-- Claim C8: every update adds the resolved, non-negative delta to the
`uint32_t` accumulator `accCount` modulo `2^32`; whenever no wrap occurs the
accumulator does not decrease, and no error is signalled (the function is
total). -/
theorem update_accCount_monotone (L : Lightning) (t : Nat) (c : Int) (d : Nat) (su : Bool)
    (h0 : 0 ≤ c) (h1 : c < LIGHTNINGCOUNT_MAX_VALUE)
    (hp : L.nv.prevCount = -1 ∨
      (0 ≤ L.nv.prevCount ∧ L.nv.prevCount < LIGHTNINGCOUNT_MAX_VALUE)) :
    0 ≤ resolvedDelta L.nv c su ∧
    (update L t c d su).nv.accCount
      = (L.nv.accCount + (resolvedDelta L.nv c su).toNat) % 2 ^ 32 ∧
    (L.nv.accCount + (resolvedDelta L.nv c su).toNat < 2 ^ 32 →
      L.nv.accCount ≤ (update L t c d su).nv.accCount) := by
  have hd : 0 ≤ resolvedDelta L.nv c su := by
    unfold resolvedDelta
    simp only [LIGHTNINGCOUNT_MAX_VALUE] at h1 hp ⊢
    split_ifs <;> omega
  refine ⟨hd, rfl, ?_⟩
  intro hlt
  show L.nv.accCount ≤ (L.nv.accCount + (resolvedDelta L.nv c su).toNat) % 2 ^ 32
  rw [Nat.mod_eq_of_lt hlt]
  omega

/-- Witness for C8: the overflow update from `prevCount = 1599` to
`rawCount = 1` adds delta 2 to the accumulator (0 becomes 2, no wrap). -/
theorem update_accCount_monotone_witness :
    0 ≤ resolvedDelta exOverflowState.nv 1 false ∧
    (update exOverflowState 360 1 0 false).nv.accCount = 2 ∧
    exOverflowState.nv.accCount ≤ (update exOverflowState 360 1 0 false).nv.accCount := by
  have h := update_accCount_monotone exOverflowState 360 1 0 false (by decide) (by decide)
    (Or.inr (by decide))
  exact ⟨h.1, (h.2.1).trans (by decide), h.2.2 (by decide)⟩

/-- Claim C10: a freshly constructed object has every histogram bucket equal
to 0 (a valid bucket, from the `{0}` aggregate initializer), `prevCount = -1`
and `deltaEvents = -1`; after `reset` every bucket is the -1 sentinel, so the
initial histogram differs from the post-reset histogram. -/
theorem fresh_hist_all_zero_differs_from_reset :
    initLightning.nv.hist = List.replicate LIGHTNING_HIST_SIZE 0 ∧
    initLightning.nv.prevCount = -1 ∧
    initLightning.deltaEvents = -1 ∧
    (reset initLightning).nv.hist = List.replicate LIGHTNING_HIST_SIZE (-1) ∧
    initLightning.nv.hist ≠ (reset initLightning).nv.hist := by
  refine ⟨rfl, rfl, rfl, rfl, ?_⟩
  decide

/-- Claim C5: `setUpdateRate` with a rate different from the stored one
stores the new rate and resets every histogram bucket to the -1 sentinel, so
the next `pastHour` reports `nbins = 0`; with an unchanged rate no histogram
bucket is modified. -/
theorem setUpdateRate_resets_hist (L : Lightning) (rate : Nat) :
    (rate ≠ L.nv.updateRate →
      (setUpdateRate L rate).nv.updateRate = rate ∧
      (setUpdateRate L rate).nv.hist = List.replicate LIGHTNING_HIST_SIZE (-1) ∧
      (pastHour (setUpdateRate L rate)).2.2.1 = 0) ∧
    (rate = L.nv.updateRate →
      (setUpdateRate L rate).nv.hist = L.nv.hist ∧
      (setUpdateRate L rate).nv.updateRate = rate) := by
  constructor
  · intro h
    have e : setUpdateRate L rate
        = hist_init { L with nv := { L.nv with updateRate := rate } } (-1) := by
      unfold setUpdateRate
      exact if_pos h
    have ehist : (setUpdateRate L rate).nv.hist
        = List.replicate LIGHTNING_HIST_SIZE (-1) := by
      rw [e]; rfl
    have enb : (pastHour (setUpdateRate L rate)).2.2.1
        = (validBuckets (setUpdateRate L rate).nv.hist).length := rfl
    refine ⟨by rw [e]; rfl, ehist, ?_⟩
    rw [enb, ehist]
    decide
  · intro h
    have e : setUpdateRate L rate = { L with nv := { L.nv with updateRate := rate } } := by
      unfold setUpdateRate
      exact if_neg (by simpa using h)
    exact ⟨by rw [e], by rw [e]⟩

/-- Witness for C5: changing the rate from 6 to 12 wipes the histogram and
the next `pastHour` sees 0 valid bins; re-setting the rate to 6 leaves the
histogram untouched. -/
theorem setUpdateRate_resets_hist_witness :
    (setUpdateRate initLightning 12).nv.hist = List.replicate LIGHTNING_HIST_SIZE (-1) ∧
    (pastHour (setUpdateRate initLightning 12)).2.2.1 = 0 ∧
    (setUpdateRate initLightning 6).nv.hist = initLightning.nv.hist := by
  have h1 := (setUpdateRate_resets_hist initLightning 12).1 (by decide)
  have h2 := (setUpdateRate_resets_hist initLightning 6).2 (by decide)
  exact ⟨h1.2.1, h1.2.2, h2.1⟩

/-- Claim C6: `lastEvent` reports nothing before any update with a positive
delta has occurred; an update with positive delta installs exactly that
cycle's `(timestamp, events, distance)` snapshot, and an update with delta 0
leaves the reported snapshot unchanged. -/
theorem lastEvent_snapshot :
    lastEvent initLightning = none ∧
    (∀ (L : Lightning) (t : Nat) (c : Int) (d : Nat) (su : Bool),
      0 < resolvedDelta L.nv c su →
      lastEvent (update L t c d su) = some (t, resolvedDelta L.nv c su, d)) ∧
    (∀ (L : Lightning) (t : Nat) (c : Int) (d : Nat) (su : Bool),
      resolvedDelta L.nv c su = 0 →
      lastEvent (update L t c d su) = lastEvent L) := by
  refine ⟨rfl, ?_, ?_⟩
  · intro L t c d su h
    simp [update, lastEvent, h]
  · intro L t c d su h
    simp [update, lastEvent, h]

/-- State after one baseline-establishing update (`prevCount = 0`). -/
def exBaseState : Lightning := update initLightning 360 0 0 false

/-- Witness for C6: from the baseline state, an update with 5 new strikes at
distance 7 makes `lastEvent` report exactly `(720, 5, 7)`, and a subsequent
zero-delta update leaves the report unchanged. -/
theorem lastEvent_snapshot_witness :
    lastEvent (update exBaseState 720 5 7 false) = some (720, 5, 7) ∧
    lastEvent (update (update exBaseState 720 5 7 false) 1080 5 3 false)
      = lastEvent (update exBaseState 720 5 7 false) := by
  have h1 := lastEvent_snapshot.2.1 exBaseState 720 5 7 false (by decide)
  have h2 := lastEvent_snapshot.2.2 (update exBaseState 720 5 7 false) 1080 5 3 false
    (by decide)
  exact ⟨h1.trans (by decide), h2⟩

/-- The state after `reset` and exactly 8 consecutive on-time updates (rate
6 min = 360 s), leaving 2 untouched sentinel buckets. -/
def exC3 : Lightning :=
  runUpdates (reset initLightning)
    ((List.range 8).map (fun i => ((i + 1) * 360, 0, 0, false)))

/-- Claim C3: `pastHour` returns the sum of all buckets ≥ 0, `nbins` the
count of such buckets, `quality = nbins / H` and `valid = (quality ≥
threshold)`; in the 8-valid-buckets scenario with rate 6 it reports
`nbins = 8`, `quality = 0.8` and `valid = true` at the default threshold. -/
theorem pastHour_sums_valid_buckets :
    (∀ L : Lightning,
      pastHour L = ((validBuckets L.nv.hist).sum,
        decide (L.qualityThreshold ≤
          ((validBuckets L.nv.hist).length : Rat) / (histBins L.nv.updateRate : Rat)),
        (validBuckets L.nv.hist).length,
        ((validBuckets L.nv.hist).length : Rat) / (histBins L.nv.updateRate : Rat))) ∧
    (pastHour exC3).2.2.1 = 8 ∧
    (pastHour exC3).2.2.2 = (0.8 : Rat) ∧
    (pastHour exC3).2.1 = true := by
  have e1 : (validBuckets exC3.nv.hist).length = 8 := by decide
  have e2 : histBins exC3.nv.updateRate = 10 := by decide
  have e3 : exC3.qualityThreshold = (0.8 : Rat) := rfl
  have hq : ((validBuckets exC3.nv.hist).length : Rat)
      / (histBins exC3.nv.updateRate : Rat) = (0.8 : Rat) := by
    rw [e1, e2]; norm_num
  refine ⟨fun L => rfl, e1, hq, ?_⟩
  show decide (exC3.qualityThreshold ≤
    ((validBuckets exC3.nv.hist).length : Rat) / (histBins exC3.nv.updateRate : Rat)) = true
  rw [e3, hq]
  exact decide_eq_true le_rfl

/-- Counterexample to claim C9: `pastHour` immediately after `reset()` does
not equal `pastHour` on a freshly constructed object (`nbins` is 0 vs 10),
because fresh construction leaves every bucket 0 while reset sets them
to -1. -/
theorem reset_differs_from_fresh :
    pastHour (reset initLightning) ≠ pastHour initLightning := by
  intro h
  have h2 : (pastHour (reset initLightning)).2.2.1 = (pastHour initLightning).2.2.1 :=
    congrArg (fun p : Int × Bool × Nat × Rat => p.2.2.1) h
  exact absurd h2 (by decide)

/-- Amended claim C9: after `reset()` on a fresh object, `lastCycle`,
`lastEvent` and the `pastHour` sum agree with the freshly constructed
object, but `pastHour` reports `nbins = 0`, `valid = false` after reset
versus `nbins = LIGHTNING_HIST_SIZE`, `valid = true` on the fresh object,
since the constructor leaves all buckets 0 (valid) while reset sets the -1
sentinel. -/
theorem reset_queries_defaults :
    lastCycle (reset initLightning) = lastCycle initLightning ∧
    lastEvent (reset initLightning) = lastEvent initLightning ∧
    (pastHour (reset initLightning)).1 = (pastHour initLightning).1 ∧
    (pastHour (reset initLightning)).2.2.1 = 0 ∧
    (pastHour initLightning).2.2.1 = LIGHTNING_HIST_SIZE ∧
    (pastHour (reset initLightning)).2.1 = false ∧
    (pastHour initLightning).2.1 = true := by
  refine ⟨rfl, rfl, by decide, by decide, by decide, ?_, ?_⟩
  · show decide ((reset initLightning).qualityThreshold ≤
      ((validBuckets (reset initLightning).nv.hist).length : Rat) /
        (histBins (reset initLightning).nv.updateRate : Rat)) = false
    have e1 : (validBuckets (reset initLightning).nv.hist).length = 0 := by decide
    have e2 : histBins (reset initLightning).nv.updateRate = 10 := by decide
    have e3 : (reset initLightning).qualityThreshold = (0.8 : Rat) := rfl
    rw [e1, e2, e3]
    exact decide_eq_false (by norm_num)
  · show decide (initLightning.qualityThreshold ≤
      ((validBuckets initLightning.nv.hist).length : Rat) /
        (histBins initLightning.nv.updateRate : Rat)) = true
    have e1 : (validBuckets initLightning.nv.hist).length = 10 := by decide
    have e2 : histBins initLightning.nv.updateRate = 10 := by decide
    have e3 : initLightning.qualityThreshold = (0.8 : Rat) := rfl
    rw [e1, e2, e3]
    exact decide_eq_true (by norm_num)

/-- Folding `set (f i) (-1)` over a list of indices preserves the length. -/
lemma foldl_set_length (l : List Nat) (f : Nat → Nat) (h : List Int) :
    (l.foldl (fun acc i => acc.set (f i) (-1)) h).length = h.length := by
  induction l generalizing h with
  | nil => rfl
  | cons a l ih => rw [List.foldl_cons, ih, List.length_set]

/-- Positions never targeted by the fold keep their value. -/
lemma foldl_set_untouched (l : List Nat) (f : Nat → Nat) (h : List Int) (j : Nat)
    (hj : ∀ i ∈ l, f i ≠ j) :
    (l.foldl (fun acc i => acc.set (f i) (-1)) h)[j]? = h[j]? := by
  induction l generalizing h with
  | nil => rfl
  | cons a l ih =>
    rw [List.foldl_cons, ih _ (fun i hi => hj i (List.mem_cons_of_mem a hi)),
      List.getElem?_set_ne (hj a (List.mem_cons_self a l))]

/-- Any in-range position targeted by the fold ends holding -1. -/
lemma foldl_set_touched (l : List Nat) (f : Nat → Nat) (h : List Int) (j : Nat)
    (hlen : j < h.length) (hj : ∃ i ∈ l, f i = j) :
    (l.foldl (fun acc i => acc.set (f i) (-1)) h)[j]? = some (-1) := by
  induction l generalizing h with
  | nil => simp at hj
  | cons a l ih =>
    rw [List.foldl_cons]
    by_cases hrest : ∃ i ∈ l, f i = j
    · exact ih (h.set (f a) (-1)) (by rwa [List.length_set]) hrest
    · have hfa : f a = j := by
        rcases hj with ⟨i, hi, hfi⟩
        rcases List.mem_cons.mp hi with he | hil
        · rw [← he]; exact hfi
        · exact absurd ⟨i, hil, hfi⟩ hrest
      rw [foldl_set_untouched l f _ j (fun i hi hfi => hrest ⟨i, hi, hfi⟩), hfa]
      exact List.getElem?_set_eq_of_lt (-1) hlen

/-- Claim C7: an update after missed cycles still resolves and records the
event delta, and every histogram bucket belonging to a skipped cycle
(strictly between the previous and the current cycle, and not the current
cycle's own ring position) is set to the -1 sentinel. -/
theorem update_gap_invalidates (L : Lightning) (t : Nat) (c : Int) (d : Nat) (su : Bool)
    (hlen : L.nv.hist.length = LIGHTNING_HIST_SIZE)
    (hur : L.nv.updateRate = LIGHTNING_UPD_RATE) :
    (update L t c d su).deltaEvents = resolvedDelta L.nv c su ∧
    (∀ cyc : Nat,
      cycleOf L.nv.updateRate L.nv.lastUpdate < cyc →
      cyc < cycleOf L.nv.updateRate t →
      cyc % histBins L.nv.updateRate ≠ cycleOf L.nv.updateRate t % histBins L.nv.updateRate →
      ((update L t c d su).nv.hist)[cyc % histBins L.nv.updateRate]? = some (-1)) := by
  refine ⟨rfl, ?_⟩
  intro cyc h1 h2 h3
  have hist_eq : (update L t c d su).nv.hist
      = (invalidateGap L.nv.hist (histBins L.nv.updateRate)
          (cycleOf L.nv.updateRate L.nv.lastUpdate) (cycleOf L.nv.updateRate t)).set
          (cycleOf L.nv.updateRate t % histBins L.nv.updateRate)
          (resolvedDelta L.nv c su) := rfl
  rw [hist_eq, List.getElem?_set_ne (Ne.symm h3)]
  unfold invalidateGap
  apply foldl_set_touched
  · rw [hlen, hur]
    exact Nat.mod_lt cyc (by decide)
  · refine ⟨cyc - (cycleOf L.nv.updateRate L.nv.lastUpdate + 1), ?_, ?_⟩
    · rw [List.mem_range]
      omega
    · have harg : cycleOf L.nv.updateRate L.nv.lastUpdate + 1
          + (cyc - (cycleOf L.nv.updateRate L.nv.lastUpdate + 1)) = cyc := by omega
      rw [harg]

/-- The state after `reset` followed by one update in cycle 1. -/
def exGapState : Lightning := update (reset initLightning) 360 0 0 false

/-- Witness for C7: from cycle 1, an update in cycle 4 (three bin widths
later) leaves bucket 2 (a skipped cycle) holding -1. -/
theorem update_gap_invalidates_witness :
    ((update exGapState 1440 0 0 false).nv.hist)[2]? = some (-1) := by
  have h := (update_gap_invalidates exGapState 1440 0 0 false (by decide) (by decide)).2
    2 (by decide) (by decide) (by decide)
  exact h
